import Mathlib

/-!
Shallow embedding of the ProTechTimeNow candidate-scoring / ranking pipeline.

The embedded code is:
* `src/simultaneous_processing/omnipresent_repo_analyzer.py`
  (`OmnipresentRepoAnalyzer`: `_parse_intent_vectors`,
  `_calculate_intent_alignment`, `_update_signature_with_analysis`,
  `_simultaneous_repository_analysis`, `_collapse_to_precision`,
  `omnipresent_analysis`), and
* `src/legacy_enhanced/quantum_hybrid_search.py`
  (`QuantumHybridSearchClient`: `_calculate_quantum_relevance`,
  `_apply_consciousness_filter`, `_synthesize_dimensional_results`,
  `_collapse_to_precision`).

Modelling conventions:
* Python `float` is modelled as `ℚ` (all constants in the source are short
  decimals).
* Python `dict` (insertion ordered) is modelled as an association list
  `List (String × _)` in insertion order; `dict` lookup is `List.lookup`.
* Python `list.sort(key=k, reverse=True)` is a stable descending sort,
  modelled by the insertion sort `sortDesc` below.
* Python slicing `l[:n]` (including `n ≤ 0`) is modelled by `pySlice`.
* Wall-clock fields (`last_analysis`, `processing_timestamp`) are not
  modelled: they are real-time data, and no claim about the ranking output
  depends on them.
* The `md5`-based `quantum_signature` string and the network-facing methods
  of the search client are outside the claims and are not modelled.
-/

/-- Python's `in` on strings: `kw in s` is substring containment.
`isPrefixCh pat l` is `pat` being a prefix of `l`. -/
def isPrefixCh : List Char → List Char → Bool
  | [], _ => true
  | _ :: _, [] => false
  | a :: as, b :: bs => a == b && isPrefixCh as bs

/-- Predicate `containsSub pat hay`: does `hay` contain `pat` as a contiguous substring
(Python `pat in hay`)?  The empty pattern is contained in every string. -/
def containsSub (pat : List Char) : List Char → Bool
  | [] => pat.isEmpty
  | c :: rest => isPrefixCh pat (c :: rest) || containsSub pat rest

/-- Python `kw in s` for strings. -/
def pyIn (kw s : String) : Bool := containsSub kw.data s.data

/-- Python `str.lower()` (ASCII-adequate model). -/
def pyLower (s : String) : String := String.mk (s.data.map Char.toLower)

/-- Python `str.split()` — split on whitespace runs, dropping empty pieces. -/
def pyTokens (s : String) : List String :=
  ((s.data.splitOnP (fun c => c.isWhitespace)).map String.mk).filter (fun t => t ≠ "")

/-- Python slicing `l[:n]` for an arbitrary integer `n`:
for `0 ≤ n` it keeps the first `n` elements, for `n < 0` it drops the last
`-n` elements. -/
def pySlice {α : Type} (n : ℤ) (l : List α) : List α :=
  if 0 ≤ n then l.take n.toNat else l.take (l.length - (-n).toNat)

/-- Stable insertion step of the descending sort: `x` is placed before the
first element whose key is strictly below `key x` (so elements with equal
keys keep their original relative order, exactly like Python's stable
`list.sort(key, reverse=True)`). -/
def insertDesc {α : Type} (key : α → ℚ) (x : α) : List α → List α
  | [] => [x]
  | y :: ys => if key y ≤ key x then x :: y :: ys else y :: insertDesc key x ys

/-- Stable descending sort by a rational key — the model of Python's
`list.sort(key=key, reverse=True)`. -/
def sortDesc {α : Type} (key : α → ℚ) : List α → List α
  | [] => []
  | x :: xs => insertDesc key x (sortDesc key xs)

/-! ### Analyzer data model (`omnipresent_repo_analyzer.py`) -/

/-- Structure `RepositorySignature` (lines 35–47 of the source).  The wall-clock field
`last_analysis` is omitted (real time, never read by the ranking logic). -/
structure RepositorySignature where
  repo_url : String
  name : String
  language_primary : String
  consciousness_score : ℚ
  worthiness_matrix : List (String × ℚ)
  synergy_potential : List String
  integration_complexity : ℚ
  quantum_coherence : ℚ
  dimensional_coordinates : List (String × ℚ)
deriving DecidableEq, Repr

/-- The analyzer object state: `self.repository_quantum_space`,
a dict from repo id to signature, in insertion order. -/
structure AnalyzerState where
  repository_quantum_space : List (String × RepositorySignature)
deriving DecidableEq, Repr

/-- Table `self.consciousness_patterns` (lines 76–82). -/
def consciousness_patterns : List (String × List String) :=
  [("security_excellence", ["security", "audit", "vulnerability", "protection", "safe"]),
   ("innovation_indicators", ["innovative", "cutting-edge", "advanced", "novel", "breakthrough"]),
   ("integration_friendly", ["api", "sdk", "library", "framework", "plugin", "integration"]),
   ("community_strength", ["popular", "maintained", "active", "community", "contributors"]),
   ("documentation_quality", ["documentation", "tutorial", "guide", "examples", "readme"])]

/-- Method `_parse_intent_vectors` (lines 298–321): one entry per consciousness
pattern (matched-keyword count normalised by group size), then the four
conditional focus indicators, in source order. -/
def parse_intent_vectors (user_intent : String) : List (String × ℚ) :=
  let intent_lower := pyLower user_intent
  (consciousness_patterns.map (fun p =>
      (p.1, (((p.2.filter (fun kw => pyIn kw intent_lower)).length : ℚ) / (p.2.length : ℚ)))))
  ++ (if ["security", "secure", "audit", "vulnerability"].any (fun w => pyIn w intent_lower)
      then [("security_focus", (0.9 : ℚ))] else [])
  ++ (if ["integrate", "integration", "api", "sdk"].any (fun w => pyIn w intent_lower)
      then [("integration_focus", (0.8 : ℚ))] else [])
  ++ (if ["best", "top", "recommended", "excellent"].any (fun w => pyIn w intent_lower)
      then [("quality_focus", (0.85 : ℚ))] else [])
  ++ (if ["ai", "ml", "intelligence", "consciousness"].any (fun w => pyIn w intent_lower)
      then [("ai_enhancement_focus", (0.8 : ℚ))] else [])

/-- Python replace of every (left-to-right, non-overlapping) occurrence of
the 6-character substring `_focus` by the empty string, as in the source
call on the intent-vector name. -/
def stripFocus : List Char → List Char
  | '_' :: 'f' :: 'o' :: 'c' :: 'u' :: 's' :: rest => stripFocus rest
  | c :: rest => c :: stripFocus rest
  | [] => []

/-- Python `sf.split('_')[0]`: the characters before the first underscore. -/
def firstToken (s : String) : String := String.mk (s.data.takeWhile (fun c => c ≠ '_'))

/-- Method `_calculate_intent_alignment` (lines 346–368): base consciousness factor,
pattern-alignment factors, worthiness-matrix factors, quantum-coherence
bonus; the sum is capped at 1. -/
def calculate_intent_alignment (repo_signature : RepositorySignature)
    (intent_vectors : List (String × ℚ)) : ℚ :=
  let base := [repo_signature.consciousness_score * 0.3]
  let patternFactors :=
    (intent_vectors.filter (fun pv =>
        (repo_signature.synergy_potential.map firstToken).contains
          (String.mk (stripFocus pv.1.data)))).map (fun pv => pv.2 * 0.2)
  let worthinessFactors :=
    (repo_signature.worthiness_matrix.filter (fun cv =>
        (intent_vectors.lookup (cv.1 ++ "_focus")).isSome)).map
      (fun cv => cv.2 * ((intent_vectors.lookup (cv.1 ++ "_focus")).getD 0) * 0.1)
  let alignment_factors :=
    base ++ patternFactors ++ worthinessFactors ++ [repo_signature.quantum_coherence * 0.2]
  min alignment_factors.sum 1

/-- Method `_update_signature_with_analysis` (lines 370–389): build a fresh
signature copying every field, with `consciousness_score` replaced by the
alignment score (`last_analysis := now` is the unmodelled wall-clock field). -/
def update_signature_with_analysis (repo_signature : RepositorySignature)
    (alignment_score : ℚ) (_intent_vectors : List (String × ℚ)) : RepositorySignature :=
  { repo_url := repo_signature.repo_url
    name := repo_signature.name
    language_primary := repo_signature.language_primary
    consciousness_score := alignment_score
    worthiness_matrix := repo_signature.worthiness_matrix
    synergy_potential := repo_signature.synergy_potential
    integration_complexity := repo_signature.integration_complexity
    quantum_coherence := repo_signature.quantum_coherence
    dimensional_coordinates := repo_signature.dimensional_coordinates }

/-- The loop body of `_simultaneous_repository_analysis` (lines 329–339),
with the candidate store threaded explicitly: each iteration reads one
stored entry, builds a fresh updated copy, and leaves the stored entry in
place.  Returns (store after the loop, analyzed list). -/
def analysisLoop (intent_vectors : List (String × ℚ)) :
    List (String × RepositorySignature) →
      List (String × RepositorySignature) × List RepositorySignature
  | [] => ([], [])
  | (repo_id, repo_signature) :: rest =>
      let alignment_score := calculate_intent_alignment repo_signature intent_vectors
      let updated_signature :=
        update_signature_with_analysis repo_signature alignment_score intent_vectors
      let r := analysisLoop intent_vectors rest
      ((repo_id, repo_signature) :: r.1, updated_signature :: r.2)

/-- Method `_simultaneous_repository_analysis` (lines 323–344): analyze every stored
repository, then sort by `consciousness_score` descending (Python's stable
sort). -/
def simultaneous_repository_analysis (space : List (String × RepositorySignature))
    (intent_vectors : List (String × ℚ)) :
    List (String × RepositorySignature) × List RepositorySignature :=
  let r := analysisLoop intent_vectors space
  (r.1, sortDesc (fun s => s.consciousness_score) r.2)

/-- High-threshold predicate of `_collapse_to_precision` (lines 401–406):
quality threshold 0.7 and integration-feasibility bound 0.8. -/
def highPass (repo : RepositorySignature) : Bool :=
  decide (0.7 ≤ repo.consciousness_score) && decide (repo.integration_complexity ≤ 0.8)

/-- Relaxed-threshold predicate of `_collapse_to_precision` (lines 409–413):
score at least 0.5, no complexity check. -/
def lowPass (repo : RepositorySignature) : Bool :=
  decide (0.5 ≤ repo.consciousness_score)

/-- Method `_collapse_to_precision` of the analyzer (lines 391–416): keep the
high-threshold survivors; if fewer than `max_results` survive, re-filter the
full analyzed set at the relaxed threshold; finally truncate with the Python
slice `[:max_results]`. -/
def collapse_to_precision (analysis_results : List RepositorySignature)
    (_intent_vectors : List (String × ℚ)) (max_results : ℤ) : List RepositorySignature :=
  let filtered_results := analysis_results.filter highPass
  let filtered_results :=
    if (filtered_results.length : ℤ) < max_results then
      analysis_results.filter lowPass
    else filtered_results
  pySlice max_results filtered_results

/-- Method `omnipresent_analysis` (lines 231–296), as a state transformer on the
analyzer object.  The insights / recommendations / metadata outputs are
derived printing data that no claim concerns; the returned list is
`precision_results`.  The method never assigns to `self`, which the explicit
state threading makes checkable. -/
def omnipresent_analysis (st : AnalyzerState) (user_intent : String)
    (max_results : ℤ) : AnalyzerState × List RepositorySignature :=
  let intent_vectors := parse_intent_vectors user_intent
  let r := simultaneous_repository_analysis st.repository_quantum_space intent_vectors
  let precision_results := collapse_to_precision r.2 intent_vectors max_results
  (⟨r.1⟩, precision_results)

/-! ### Search client data model (`quantum_hybrid_search.py`) -/

/-- A raw search-backend result: the dict consumed by
`_calculate_quantum_relevance` (keys `title`, `url`, `content`, `source`). -/
structure RawResult where
  title : String
  url : String
  content : String
  source : String
deriving DecidableEq, Repr

/-- Structure `QuantumSearchResult` (lines 35–47).  The `md5`-derived
`quantum_signature` string and the free-form `metadata` dict are not
modelled (no claim reads them); `synergy_factors = None` is modelled as the
empty list, matching every use site (`result.synergy_factors or []`). -/
structure QuantumSearchResult where
  title : String
  url : String
  snippet : String
  source : String
  relevance_score : ℚ
  consciousness_resonance : ℚ
  dimensional_coordinates : List (String × ℚ)
  synergy_factors : List String
deriving DecidableEq, Repr

/-- Table `self.quantum_search_patterns` (lines 83–88). -/
def quantum_search_patterns : List (String × List String) :=
  [("blockchain_consciousness", ["consciousness", "aware", "intelligent", "quantum"]),
   ("repository_synergy", ["integration", "synergy", "compatible", "enhanced"]),
   ("dimensional_thinking", ["fourth-dimensional", "multi-dimensional", "paradox", "quantum"]),
   ("security_patterns", ["security", "audit", "vulnerability", "protection"])]

/-- Python `len(set(a) & set(b))` for token lists: the number of distinct tokens of
`a` that also occur in `b`. -/
def tokenSetInter (a b : List String) : ℕ :=
  (a.dedup.filter (fun t => b.contains t)).length

/-- Method `_calculate_quantum_relevance` (lines 196–211): weighted title/content
token overlap normalised by query length plus 5, plus 0.1 per matched
consciousness-pattern keyword, capped at 1. -/
def calculate_quantum_relevance (result : RawResult) (query : String) : ℚ :=
  let qtokens := pyTokens (pyLower query)
  let title_match := tokenSetInter qtokens (pyTokens (pyLower result.title))
  let content_match := tokenSetInter qtokens (pyTokens (pyLower result.content))
  let base_relevance :=
    ((title_match : ℚ) * 2 + (content_match : ℚ)) / (((pyTokens query).length : ℚ) + 5)
  let consciousness_boost :=
    (quantum_search_patterns.map (fun p =>
        ((p.2.filter (fun kw =>
            pyIn kw (pyLower result.title) || pyIn kw (pyLower result.content))).length : ℚ)
          * 0.1)).sum
  min (base_relevance + consciousness_boost) 1

/-- Method `_apply_consciousness_filter` (lines 284–304): identity when the filter
is inactive; else filter at resonance 0.3, relax to 0.1 when fewer than 3
survive, and fall back to the full input (`filtered_results or results`)
when the filter is too aggressive. -/
def apply_consciousness_filter (consciousness_filter_active : Bool)
    (results : List QuantumSearchResult) (_query : String) : List QuantumSearchResult :=
  if !consciousness_filter_active then results
  else
    let filtered_results := results.filter (fun r => decide (0.3 ≤ r.consciousness_resonance))
    let filtered_results :=
      if filtered_results.length < 3 then
        results.filter (fun r => decide (0.1 ≤ r.consciousness_resonance))
      else filtered_results
    if filtered_results.isEmpty then results else filtered_results

/-- The URL de-duplication loop of `_synthesize_dimensional_results`
(lines 274–281): keep the first result carrying each URL. -/
def dedupByUrl (seen : List String) : List QuantumSearchResult → List QuantumSearchResult
  | [] => []
  | r :: rest =>
      if seen.contains r.url then dedupByUrl seen rest
      else r :: dedupByUrl (r.url :: seen) rest

/-- Method `_synthesize_dimensional_results` (lines 266–282): concatenate the
per-layer result lists (the `isinstance` guard that skips exceptions is
modelled by the input already being lists) and de-duplicate by URL. -/
def synthesize_dimensional_results
    (reality_layer_results : List (List QuantumSearchResult)) : List QuantumSearchResult :=
  dedupByUrl [] reality_layer_results.flatten

/-- The `quantum_score` key of the client's `_collapse_to_precision`
(lines 312–318). -/
def quantum_score (result : QuantumSearchResult) : ℚ :=
  result.relevance_score * 0.4 +
  result.consciousness_resonance * 0.3 +
  (result.synergy_factors.length : ℚ) * 0.1 +
  ((result.dimensional_coordinates.lookup "consciousness").getD 0) * 0.2

/-- Method `_collapse_to_precision` of the search client (lines 306–322): stable
sort by `quantum_score` descending, then the Python slice `[:max_results]`. -/
def collapse_to_precision_client (results : List QuantumSearchResult)
    (_query : String) (max_results : ℤ) : List QuantumSearchResult :=
  pySlice max_results (sortDesc quantum_score results)

/-! ### Concrete records used by witnesses and counterexamples -/

/-- The `crytic/slither` seed record of
`_initialize_quantum_repository_space` (lines 132–145), used as a concrete
witness input. -/
def witnessSignature : RepositorySignature :=
  { repo_url := "https://github.com/crytic/slither"
    name := "slither"
    language_primary := "Python"
    consciousness_score := 0.89
    worthiness_matrix :=
      [("innovation", 0.88), ("stability", 0.85), ("community", 0.8),
       ("security", 0.92), ("documentation", 0.8)]
    synergy_potential := ["static_analysis", "solidity_security", "vulnerability_detection"]
    integration_complexity := 0.4
    quantum_coherence := 0.86
    dimensional_coordinates := [("complexity", 0.5), ("impact", 0.85), ("innovation", 0.88)] }

/-- A concrete raw search hit, used as a witness input for the relevance
scorer. -/
def witnessRawResult : RawResult :=
  { title := "Slither security static analysis"
    url := "https://github.com/crytic/slither"
    content := "security audit framework for solidity"
    source := "github" }

/-- A zero-featured candidate: its intent alignment for the empty query is 0,
below every threshold. -/
def lowScoreSignature : RepositorySignature :=
  { repo_url := "https://github.com/example/zero"
    name := "zero"
    language_primary := "Python"
    consciousness_score := 0
    worthiness_matrix := []
    synergy_potential := []
    integration_complexity := 0
    quantum_coherence := 0
    dimensional_coordinates := [] }

/-- Tie candidate with id `a`: empty-query alignment 1/2. -/
def tieSignatureA : RepositorySignature :=
  { repo_url := "a"
    name := "a"
    language_primary := "Go"
    consciousness_score := 1
    worthiness_matrix := []
    synergy_potential := []
    integration_complexity := 0
    quantum_coherence := 1
    dimensional_coordinates := [] }

/-- Tie candidate with id `b`: empty-query alignment 1/2, equal to `a`. -/
def tieSignatureB : RepositorySignature :=
  { repo_url := "b"
    name := "b"
    language_primary := "Go"
    consciousness_score := 1
    worthiness_matrix := []
    synergy_potential := []
    integration_complexity := 0
    quantum_coherence := 1
    dimensional_coordinates := [] }

/-- A candidate that passes the high-threshold filter. -/
def strongSignature : RepositorySignature :=
  { repo_url := "https://github.com/example/strong"
    name := "strong"
    language_primary := "Go"
    consciousness_score := 0.9
    worthiness_matrix := []
    synergy_potential := []
    integration_complexity := 0.1
    quantum_coherence := 0.9
    dimensional_coordinates := [] }

/-- A second high-pass candidate with a different id. -/
def strongSignature2 : RepositorySignature :=
  { repo_url := "https://github.com/example/strong2"
    name := "strong2"
    language_primary := "Go"
    consciousness_score := 0.8
    worthiness_matrix := []
    synergy_potential := []
    integration_complexity := 0.1
    quantum_coherence := 0.9
    dimensional_coordinates := [] }

/-- Search hit in one dimensional layer; quantum score 0. -/
def resultAlpha : QuantumSearchResult :=
  { title := "alpha"
    url := "https://example.com/alpha"
    snippet := ""
    source := "web_blockchain_universe"
    relevance_score := 0
    consciousness_resonance := 0
    dimensional_coordinates := []
    synergy_factors := [] }

/-- Search hit in another layer; quantum score 0.2. -/
def resultBeta : QuantumSearchResult :=
  { title := "beta"
    url := "https://example.com/beta"
    snippet := ""
    source := "web_security_dimension"
    relevance_score := 0.5
    consciousness_resonance := 0
    dimensional_coordinates := []
    synergy_factors := [] }

/-- Search hit tied with `resultAlpha` at quantum score 0, different URL. -/
def resultGamma : QuantumSearchResult :=
  { title := "gamma"
    url := "https://example.com/gamma"
    snippet := ""
    source := "web_developer_consciousness"
    relevance_score := 0
    consciousness_resonance := 0
    dimensional_coordinates := []
    synergy_factors := [] }

/-! ### Lemmas about the Python-semantics helpers -/

open scoped List

theorem insertDesc_perm {α : Type} (key : α → ℚ) (x : α) (l : List α) :
    insertDesc key x l ~ x :: l := by
  induction l with
  | nil => exact List.Perm.refl _
  | cons y ys ih =>
      by_cases h : key y ≤ key x
      · simp [insertDesc, h]
      · simp only [insertDesc, if_neg h]
        exact (ih.cons y).trans (List.Perm.swap x y ys)

theorem sortDesc_perm {α : Type} (key : α → ℚ) (l : List α) : sortDesc key l ~ l := by
  induction l with
  | nil => exact List.Perm.refl _
  | cons x xs ih => exact (insertDesc_perm key x _).trans (ih.cons x)

theorem mem_sortDesc {α : Type} {key : α → ℚ} {l : List α} {a : α} :
    a ∈ sortDesc key l ↔ a ∈ l :=
  (sortDesc_perm key l).mem_iff

theorem length_sortDesc {α : Type} (key : α → ℚ) (l : List α) :
    (sortDesc key l).length = l.length :=
  (sortDesc_perm key l).length_eq

theorem insertDesc_pairwise {α : Type} {key : α → ℚ} (x : α) {l : List α}
    (h : l.Pairwise (fun a b => key b ≤ key a)) :
    (insertDesc key x l).Pairwise (fun a b => key b ≤ key a) := by
  induction l with
  | nil => simp [insertDesc]
  | cons y ys ih =>
      rcases List.pairwise_cons.1 h with ⟨hy, hys⟩
      by_cases hcmp : key y ≤ key x
      · simp only [insertDesc, if_pos hcmp]
        refine List.pairwise_cons.2 ⟨?_, h⟩
        intro b hb
        rcases List.mem_cons.1 hb with rfl | hb
        · exact hcmp
        · exact (hy b hb).trans hcmp
      · simp only [insertDesc, if_neg hcmp]
        refine List.pairwise_cons.2 ⟨?_, ih hys⟩
        intro b hb
        rcases List.mem_cons.1 ((insertDesc_perm key x ys).mem_iff.1 hb) with rfl | h'
        · exact le_of_lt (lt_of_not_le hcmp)
        · exact hy b h'

theorem sortDesc_pairwise {α : Type} (key : α → ℚ) (l : List α) :
    (sortDesc key l).Pairwise (fun a b => key b ≤ key a) := by
  induction l with
  | nil => simp [sortDesc]
  | cons x xs ih => exact insertDesc_pairwise x ih

theorem sortDesc_eq_of_perm {α : Type} (key : α → ℚ) {l₁ l₂ : List α}
    (hp : l₁ ~ l₂) (hnd : (l₁.map key).Nodup) :
    sortDesc key l₁ = sortDesc key l₂ := by
  haveI : IsAntisymm α (fun a b => key b < key a) :=
    ⟨fun a b h1 h2 => absurd (h1.trans h2) (lt_irrefl _)⟩
  have hperm : sortDesc key l₁ ~ sortDesc key l₂ :=
    (sortDesc_perm key l₁).trans (hp.trans (sortDesc_perm key l₂).symm)
  have strict : ∀ m : List α, (m.map key).Nodup →
      m.Pairwise (fun a b => key b ≤ key a) → m.Pairwise (fun a b => key b < key a) := by
    intro m hm hsorted
    have hne : m.Pairwise (fun a b => key a ≠ key b) := (List.pairwise_map.1 hm)
    exact (hsorted.and hne).imp (fun h => lt_of_le_of_ne h.1 (Ne.symm h.2))
  have hnd₁ : ((sortDesc key l₁).map key).Nodup :=
    (((sortDesc_perm key l₁).map key).nodup_iff).2 hnd
  have hnd₂ : ((sortDesc key l₂).map key).Nodup :=
    (((sortDesc_perm key l₂).map key).nodup_iff).2 ((((hp.map key)).nodup_iff).1 hnd)
  exact List.eq_of_perm_of_sorted hperm
    (strict _ hnd₁ (sortDesc_pairwise key l₁))
    (strict _ hnd₂ (sortDesc_pairwise key l₂))

theorem pySlice_sublist {α : Type} (n : ℤ) (l : List α) : pySlice n l <+ l := by
  unfold pySlice
  split <;> exact List.take_sublist _ _

theorem length_pySlice_le {α : Type} {n : ℤ} (hn : 0 ≤ n) (l : List α) :
    ((pySlice n l).length : ℤ) ≤ n := by
  unfold pySlice
  rw [if_pos hn]
  have h := List.length_take_le n.toNat l
  omega

theorem pySlice_ne_nil {α : Type} {n : ℤ} (hn : 1 ≤ n) {l : List α} (hl : l ≠ []) :
    pySlice n l ≠ [] := by
  unfold pySlice
  rw [if_pos (by omega : (0 : ℤ) ≤ n)]
  intro hcontra
  rcases (List.take_eq_nil_iff).1 hcontra with h | h
  · omega
  · exact hl h

theorem length_pySlice_neg {α : Type} {n : ℤ} (hn : n < 0) (l : List α) :
    ((pySlice n l).length : ℤ) = max 0 ((l.length : ℤ) + n) := by
  unfold pySlice
  rw [if_neg (by omega)]
  rw [List.length_take]
  omega

theorem pySlice_zero {α : Type} (l : List α) : pySlice 0 l = [] := by
  simp [pySlice]

/-! ### Lemmas about the embedded operations -/

theorem analysisLoop_fst (intent_vectors : List (String × ℚ))
    (space : List (String × RepositorySignature)) :
    (analysisLoop intent_vectors space).1 = space := by
  induction space with
  | nil => rfl
  | cons p rest ih =>
      cases p with
      | mk k sig => simp [analysisLoop, ih]

theorem analysisLoop_snd_mem {intent_vectors : List (String × ℚ)}
    {space : List (String × RepositorySignature)} {k : String} {sig : RepositorySignature}
    (h : (k, sig) ∈ space) :
    update_signature_with_analysis sig (calculate_intent_alignment sig intent_vectors)
        intent_vectors ∈ (analysisLoop intent_vectors space).2 := by
  induction space with
  | nil => cases h
  | cons p rest ih =>
      cases p with
      | mk k' sig' =>
          rcases List.mem_cons.1 h with heq | hmem
          · rw [show sig = sig' from congrArg Prod.snd heq]
            exact List.mem_cons_self _ _
          · exact List.mem_cons_of_mem _ (ih hmem)

theorem omnipresent_analysis_fst (st : AnalyzerState) (user_intent : String)
    (max_results : ℤ) : (omnipresent_analysis st user_intent max_results).1 = st := by
  show AnalyzerState.mk
      (analysisLoop (parse_intent_vectors user_intent) st.repository_quantum_space).1 = st
  rw [analysisLoop_fst]

theorem mem_of_lookup_eq_some {l : List (String × ℚ)} {k : String} {v : ℚ}
    (h : l.lookup k = some v) : (k, v) ∈ l := by
  rcases List.lookup_eq_some_iff.1 h with ⟨l₁, l₂, rfl, -⟩
  simp

theorem parse_intent_vectors_nonneg (q : String) :
    ∀ p ∈ parse_intent_vectors q, 0 ≤ p.2 := by
  intro p hp
  unfold parse_intent_vectors at hp
  simp only [List.mem_append] at hp
  rcases hp with (((hp | hp) | hp) | hp) | hp
  · rcases List.mem_map.1 hp with ⟨c, -, rfl⟩
    exact div_nonneg (Nat.cast_nonneg _) (Nat.cast_nonneg _)
  all_goals
    split at hp
    · rw [List.mem_singleton.1 hp]
      norm_num
    · exact absurd hp (List.not_mem_nil _)

theorem calculate_intent_alignment_nonneg (sig : RepositorySignature) (q : String)
    (hcs : 0 ≤ sig.consciousness_score) (hqc : 0 ≤ sig.quantum_coherence)
    (hw : ∀ p ∈ sig.worthiness_matrix, 0 ≤ p.2) :
    0 ≤ calculate_intent_alignment sig (parse_intent_vectors q) := by
  unfold calculate_intent_alignment
  apply le_min _ (by norm_num)
  apply List.sum_nonneg
  intro x hx
  simp only [List.mem_append] at hx
  rcases hx with ((hx | hx) | hx) | hx
  · rcases List.mem_singleton.1 hx with rfl
    exact mul_nonneg hcs (by norm_num)
  · rcases List.mem_map.1 hx with ⟨pv, hpv, rfl⟩
    have := parse_intent_vectors_nonneg q pv (List.mem_of_mem_filter hpv)
    exact mul_nonneg this (by norm_num)
  · rcases List.mem_map.1 hx with ⟨cv, hcv, rfl⟩
    have h1 : 0 ≤ cv.2 := hw cv (List.mem_of_mem_filter hcv)
    have h2 : 0 ≤ ((parse_intent_vectors q).lookup (cv.1 ++ "_focus")).getD 0 := by
      cases hlk : (parse_intent_vectors q).lookup (cv.1 ++ "_focus") with
      | none => simp
      | some v =>
          simp only [Option.getD_some]
          exact parse_intent_vectors_nonneg q _ (mem_of_lookup_eq_some hlk)
    exact mul_nonneg (mul_nonneg h1 h2) (by norm_num)
  · rcases List.mem_singleton.1 hx with rfl
    exact mul_nonneg hqc (by norm_num)

theorem calculate_intent_alignment_le_one (sig : RepositorySignature)
    (intent_vectors : List (String × ℚ)) :
    calculate_intent_alignment sig intent_vectors ≤ 1 := by
  unfold calculate_intent_alignment
  exact min_le_right _ _

theorem calculate_quantum_relevance_nonneg (r : RawResult) (q : String) :
    0 ≤ calculate_quantum_relevance r q := by
  unfold calculate_quantum_relevance
  apply le_min _ (by norm_num)
  apply add_nonneg
  · apply div_nonneg
    · positivity
    · positivity
  · apply List.sum_nonneg
    intro x hx
    rcases List.mem_map.1 hx with ⟨p, -, rfl⟩
    positivity

theorem calculate_quantum_relevance_le_one (r : RawResult) (q : String) :
    calculate_quantum_relevance r q ≤ 1 := by
  unfold calculate_quantum_relevance
  exact min_le_right _ _

/-! ### Claim theorems -/

/-- C6: a ranking pass never mutates any candidate record in the store:
after `omnipresent_analysis` returns, `repository_quantum_space` holds
exactly the entries (same keys, same field values) it held before the call —
scoring builds fresh updated copies via `_update_signature_with_analysis`
instead of writing to the stored records. -/
theorem C6_store_unchanged (st : AnalyzerState) (user_intent : String) (max_results : ℤ) :
    (omnipresent_analysis st user_intent max_results).1 = st :=
  omnipresent_analysis_fst st user_intent max_results

/-- C4: calling `omnipresent_analysis` twice with the identical candidate
store and identical query yields identical output (and identical state):
the ranking result is a pure function of the store and the query, with no
randomness and no hidden state.  (Wall-clock timestamp fields are outside
the model.) -/
theorem C4_idempotent (st : AnalyzerState) (user_intent : String) (max_results : ℤ) :
    (omnipresent_analysis ((omnipresent_analysis st user_intent max_results).1)
        user_intent max_results).2 =
      (omnipresent_analysis st user_intent max_results).2 ∧
    (omnipresent_analysis ((omnipresent_analysis st user_intent max_results).1)
        user_intent max_results).1 =
      (omnipresent_analysis st user_intent max_results).1 := by
  constructor
  · rw [omnipresent_analysis_fst]
  · rw [omnipresent_analysis_fst, omnipresent_analysis_fst]

/-- C9: feature extraction on the empty query never fails and yields
all-zero features: `_parse_intent_vectors` of the empty string returns the
five consciousness-pattern entries all with value 0 and adds none of the
focus indicators, so scoring proceeds with zero-overlap features. -/
theorem C9_empty_query_zero_features :
    parse_intent_vectors "" =
      [("security_excellence", 0), ("innovation_indicators", 0), ("integration_friendly", 0),
       ("community_strength", 0), ("documentation_quality", 0)] := by
  norm_num [parse_intent_vectors, consciousness_patterns]
  decide

/-- C5: every relevance score lies in [0, 1]: the analyzer's intent
alignment score (assigned as `consciousness_score`) for any candidate whose
numeric feature fields lie in [0, 1] and any query, and the search client's
quantum relevance score for any raw result and any query. -/
theorem C5_scores_in_unit_interval :
    (∀ (sig : RepositorySignature) (q : String),
        0 ≤ sig.consciousness_score → sig.consciousness_score ≤ 1 →
        0 ≤ sig.quantum_coherence → sig.quantum_coherence ≤ 1 →
        (∀ p ∈ sig.worthiness_matrix, 0 ≤ p.2 ∧ p.2 ≤ 1) →
        0 ≤ calculate_intent_alignment sig (parse_intent_vectors q) ∧
          calculate_intent_alignment sig (parse_intent_vectors q) ≤ 1) ∧
    (∀ (r : RawResult) (q : String),
        0 ≤ calculate_quantum_relevance r q ∧ calculate_quantum_relevance r q ≤ 1) := by
  constructor
  · intro sig q hcs _ hqc _ hw
    exact ⟨calculate_intent_alignment_nonneg sig q hcs hqc (fun p hp => (hw p hp).1),
      calculate_intent_alignment_le_one sig _⟩
  · intro r q
    exact ⟨calculate_quantum_relevance_nonneg r q, calculate_quantum_relevance_le_one r q⟩

/-- Witness for C5 at a concrete seed candidate, raw hit and query. -/
theorem C5_witness :
    (0 ≤ witnessSignature.consciousness_score ∧ witnessSignature.consciousness_score ≤ 1) ∧
    (0 ≤ calculate_intent_alignment witnessSignature (parse_intent_vectors "security audit") ∧
      calculate_intent_alignment witnessSignature (parse_intent_vectors "security audit") ≤ 1) ∧
    (0 ≤ calculate_quantum_relevance witnessRawResult "security audit" ∧
      calculate_quantum_relevance witnessRawResult "security audit" ≤ 1) := by
  refine ⟨⟨by norm_num [witnessSignature], by norm_num [witnessSignature]⟩, ?_, ?_⟩
  · refine C5_scores_in_unit_interval.1 witnessSignature "security audit"
      (by norm_num [witnessSignature]) (by norm_num [witnessSignature])
      (by norm_num [witnessSignature]) (by norm_num [witnessSignature]) ?_
    intro p hp
    simp only [witnessSignature, List.mem_cons, List.not_mem_nil, or_false] at hp
    rcases hp with rfl | rfl | rfl | rfl | rfl <;> norm_num
  · exact C5_scores_in_unit_interval.2 witnessRawResult "security audit"

/-- C10: in the analyzer's high-threshold stage a candidate needs both
score at least 0.7 and `integration_complexity` at most 0.8.  A candidate
with score at least 0.7 but complexity above 0.8 is excluded from the
high-threshold survivors; when the relaxation triggers it re-enters through
the 0.5-threshold filter, and when the relaxation does not trigger it is
absent from the final output. -/
theorem C10_complexity_gate (results : List RepositorySignature)
    (intent_vectors : List (String × ℚ)) (max_results : ℤ) (sig : RepositorySignature)
    (hscore : (0.7 : ℚ) ≤ sig.consciousness_score)
    (hcomp : (0.8 : ℚ) < sig.integration_complexity) :
    sig ∉ results.filter highPass ∧
    (sig ∈ results → ((results.filter highPass).length : ℤ) < max_results →
      sig ∈ results.filter lowPass) ∧
    (¬ ((results.filter highPass).length : ℤ) < max_results →
      sig ∉ collapse_to_precision results intent_vectors max_results) := by
  have hhp : highPass sig = false := by
    unfold highPass
    rw [decide_eq_false (not_le.2 hcomp)]
    simp
  refine ⟨?_, ?_, ?_⟩
  · intro hmem
    have h := (List.mem_filter.1 hmem).2
    rw [hhp] at h
    exact Bool.false_ne_true h
  · intro hmem _
    refine List.mem_filter.2 ⟨hmem, ?_⟩
    unfold lowPass
    exact decide_eq_true (le_trans (by norm_num) hscore)
  · intro hcond hmem
    have hcol : collapse_to_precision results intent_vectors max_results =
        pySlice max_results (if ((results.filter highPass).length : ℤ) < max_results
          then results.filter lowPass else results.filter highPass) := rfl
    rw [hcol, if_neg hcond] at hmem
    have h := (List.mem_filter.1 ((pySlice_sublist _ _).subset hmem)).2
    rw [hhp] at h
    exact Bool.false_ne_true h

/-- Witness for C10 at a concrete high-score, high-complexity candidate. -/
theorem C10_witness :
    ((0.7 : ℚ) ≤ (0.9 : ℚ) ∧ (0.8 : ℚ) < (0.95 : ℚ)) ∧
    { witnessSignature with consciousness_score := 0.9, integration_complexity := 0.95 } ∉
      [{ witnessSignature with consciousness_score := 0.9, integration_complexity := 0.95 }].filter
        highPass := by
  refine ⟨⟨by norm_num, by norm_num⟩, ?_⟩
  exact (C10_complexity_gate
    [{ witnessSignature with consciousness_score := 0.9, integration_complexity := 0.95 }]
    [] 3 _ (by norm_num [witnessSignature]) (by norm_num [witnessSignature])).1

/-- C1 counterexample: with requested limit -1 (an allowed integer input)
and two high-pass candidates, the analyzer's `_collapse_to_precision`
returns one result, so the returned length is not bounded by the requested
limit.  The Python slice `l[:-1]` drops one element instead of truncating
to at most -1. -/
theorem C1_counterexample :
    ¬ (((collapse_to_precision [strongSignature, strongSignature2] [] (-1)).length : ℤ) ≤ -1) := by
  have h : collapse_to_precision [strongSignature, strongSignature2] [] (-1) =
      [strongSignature] := by
    norm_num [collapse_to_precision, highPass, lowPass, pySlice, strongSignature, strongSignature2]
  rw [h]
  norm_num

/-- C1 (amended): for every nonnegative requested limit, the ranked list
returned by a ranking call — the analyzer's `_collapse_to_precision` and the
search client's `_collapse_to_precision` — has length at most the limit. -/
theorem C1_length_le_limit (resultsA : List RepositorySignature)
    (intent_vectors : List (String × ℚ)) (resultsC : List QuantumSearchResult)
    (q : String) {n : ℤ} (hn : 0 ≤ n) :
    ((collapse_to_precision resultsA intent_vectors n).length : ℤ) ≤ n ∧
    ((collapse_to_precision_client resultsC q n).length : ℤ) ≤ n :=
  ⟨length_pySlice_le hn _, length_pySlice_le hn _⟩

/-- Witness for C1 at limit 2 with concrete candidate stores. -/
theorem C1_witness :
    ((0 : ℤ) ≤ 2) ∧
    ((collapse_to_precision [strongSignature] [] 2).length : ℤ) ≤ 2 ∧
    ((collapse_to_precision_client [] "query" 2).length : ℤ) ≤ 2 :=
  ⟨by norm_num,
   (C1_length_le_limit [strongSignature] [] [] "query" (by norm_num)).1,
   (C1_length_le_limit [strongSignature] [] [] "query" (by norm_num)).2⟩

theorem ite_isEmpty_ne_nil {α : Type} (F l : List α) (h : l ≠ []) :
    (if F.isEmpty then l else F) ≠ [] := by
  split
  · exact h
  · rename_i hne
    intro hcontra
    exact hne (by simp [hcontra])

theorem apply_consciousness_filter_ne_nil (active : Bool)
    (results : List QuantumSearchResult) (q : String) (h : results ≠ []) :
    apply_consciousness_filter active results q ≠ [] := by
  unfold apply_consciousness_filter
  cases active with
  | false => simpa using h
  | true => exact ite_isEmpty_ne_nil _ _ h

/-- C2 (amended): the analyzer's ranker returns a nonempty list whenever
some stored candidate's alignment score reaches the relaxed threshold 0.5
and the limit is at least 1; the full-unfiltered-set fallback exists only in
the search client's `_apply_consciousness_filter`, which never returns an
empty list on nonempty input. -/
theorem C2_nonempty_above_low_threshold (st : AnalyzerState) (q : String) (n : ℤ)
    (hn : 1 ≤ n)
    (hex : ∃ p ∈ st.repository_quantum_space,
        (0.5 : ℚ) ≤ calculate_intent_alignment p.2 (parse_intent_vectors q)) :
    (omnipresent_analysis st q n).2 ≠ [] ∧
    ∀ (active : Bool) (results : List QuantumSearchResult) (q' : String),
      results ≠ [] → apply_consciousness_filter active results q' ≠ [] := by
  refine ⟨?_, fun active results q' h => apply_consciousness_filter_ne_nil active results q' h⟩
  obtain ⟨p, hmem, hsc⟩ := hex
  obtain ⟨k, sig⟩ := p
  have hout : (omnipresent_analysis st q n).2 =
      collapse_to_precision
        (sortDesc (fun s => s.consciousness_score)
          (analysisLoop (parse_intent_vectors q) st.repository_quantum_space).2)
        (parse_intent_vectors q) n := rfl
  have hupA : update_signature_with_analysis sig
      (calculate_intent_alignment sig (parse_intent_vectors q)) (parse_intent_vectors q) ∈
      sortDesc (fun s => s.consciousness_score)
        (analysisLoop (parse_intent_vectors q) st.repository_quantum_space).2 :=
    mem_sortDesc.2 (analysisLoop_snd_mem hmem)
  rw [hout]
  have hcol : ∀ (A : List RepositorySignature),
      collapse_to_precision A (parse_intent_vectors q) n =
      pySlice n (if ((A.filter highPass).length : ℤ) < n
        then A.filter lowPass else A.filter highPass) := fun A => rfl
  rw [hcol]
  split
  · apply pySlice_ne_nil hn
    apply List.ne_nil_of_mem (a := update_signature_with_analysis sig
      (calculate_intent_alignment sig (parse_intent_vectors q)) (parse_intent_vectors q))
    refine List.mem_filter.2 ⟨hupA, ?_⟩
    unfold lowPass
    exact decide_eq_true hsc
  · rename_i hcond
    apply pySlice_ne_nil hn
    intro hnil
    rw [hnil] at hcond
    simp at hcond
    omega

/-- C2 counterexample: a nonempty candidate store whose only candidate
scores 0 for the empty query makes `omnipresent_analysis` return the empty
list — the analyzer has no full-unfiltered-set fallback, so it can return
nothing although candidates exist. -/
theorem C2_counterexample :
    ([("zero", lowScoreSignature)] : List (String × RepositorySignature)) ≠ [] ∧
    (omnipresent_analysis ⟨[("zero", lowScoreSignature)]⟩ "" 5).2 = [] := by
  refine ⟨by simp, ?_⟩
  norm_num [omnipresent_analysis, parse_intent_vectors, consciousness_patterns,
    simultaneous_repository_analysis, analysisLoop, calculate_intent_alignment,
    lowScoreSignature, update_signature_with_analysis, sortDesc, insertDesc,
    collapse_to_precision, highPass, lowPass, pySlice]

/-- Witness for C2 at a store whose candidate scores exactly 0.5. -/
theorem C2_witness :
    ((1 : ℤ) ≤ 1 ∧
      (0.5 : ℚ) ≤ calculate_intent_alignment tieSignatureA (parse_intent_vectors "")) ∧
    (omnipresent_analysis ⟨[("a", tieSignatureA)]⟩ "" 1).2 ≠ [] := by
  have hsc : (0.5 : ℚ) ≤ calculate_intent_alignment tieSignatureA (parse_intent_vectors "") := by
    norm_num [parse_intent_vectors, consciousness_patterns, calculate_intent_alignment,
      tieSignatureA]
  refine ⟨⟨le_refl _, hsc⟩, ?_⟩
  exact (C2_nonempty_above_low_threshold ⟨[("a", tieSignatureA)]⟩ "" 1 (by norm_num)
    ⟨("a", tieSignatureA), List.mem_singleton.2 rfl, hsc⟩).1

theorem collapse_to_precision_pairwise (A : List RepositorySignature)
    (intent_vectors : List (String × ℚ)) (n : ℤ)
    (h : A.Pairwise (fun a b => b.consciousness_score ≤ a.consciousness_score)) :
    (collapse_to_precision A intent_vectors n).Pairwise
      (fun a b => b.consciousness_score ≤ a.consciousness_score) := by
  have hcol : collapse_to_precision A intent_vectors n =
      pySlice n (if ((A.filter highPass).length : ℤ) < n
        then A.filter lowPass else A.filter highPass) := rfl
  rw [hcol]
  split <;>
    exact List.Pairwise.sublist ((pySlice_sublist _ _).trans (List.filter_sublist _)) h

/-- C3 (amended): every ranked output is sorted by relevance score in
descending order — the analyzer output by `consciousness_score`, the search
client output by `quantum_score`.  Equal-score candidates keep the order of
the analyzed / merged list (Python's stable sort), not ascending id order. -/
theorem C3_sorted_descending :
    (∀ (st : AnalyzerState) (q : String) (n : ℤ),
        ((omnipresent_analysis st q n).2).Pairwise
          (fun a b => b.consciousness_score ≤ a.consciousness_score)) ∧
    (∀ (results : List QuantumSearchResult) (q : String) (n : ℤ),
        (collapse_to_precision_client results q n).Pairwise
          (fun a b => quantum_score b ≤ quantum_score a)) := by
  constructor
  · intro st q n
    exact collapse_to_precision_pairwise _ (parse_intent_vectors q) n
      (sortDesc_pairwise (fun s => s.consciousness_score)
        (analysisLoop (parse_intent_vectors q) st.repository_quantum_space).2)
  · intro results q n
    exact List.Pairwise.sublist (pySlice_sublist _ _) (sortDesc_pairwise quantum_score results)

/-- C3 counterexample: two candidates with equal scores inserted in the
store as `b` before `a` come out in the order `b`, `a` — the claimed
tie-break by candidate id ascending does not hold. -/
theorem C3_counterexample :
    ¬ ((omnipresent_analysis ⟨[("b", tieSignatureB), ("a", tieSignatureA)]⟩ "" 2).2).Pairwise
        (fun a b => b.consciousness_score < a.consciousness_score ∨
          (b.consciousness_score = a.consciousness_score ∧ ¬ (b.repo_url < a.repo_url))) := by
  have hmap : ((omnipresent_analysis ⟨[("b", tieSignatureB), ("a", tieSignatureA)]⟩ "" 2).2).map
      (fun r => (r.consciousness_score, r.repo_url)) =
      [((1 : ℚ)/2, "b"), ((1 : ℚ)/2, "a")] := by
    norm_num [omnipresent_analysis, parse_intent_vectors, consciousness_patterns,
      simultaneous_repository_analysis, analysisLoop, calculate_intent_alignment,
      tieSignatureA, tieSignatureB, update_signature_with_analysis, sortDesc, insertDesc,
      collapse_to_precision, highPass, lowPass, pySlice]
  intro h
  have h2 : ([((1 : ℚ)/2, "b"), ((1 : ℚ)/2, "a")] : List (ℚ × String)).Pairwise
      (fun p r => r.1 < p.1 ∨ (r.1 = p.1 ∧ ¬ (r.2 < p.2))) := by
    rw [← hmap]
    exact (List.pairwise_map).2 h
  have h3 := List.rel_of_pairwise_cons h2 (List.mem_singleton.2 rfl)
  rcases h3 with h3 | ⟨-, h3⟩
  · exact absurd h3 (by norm_num)
  · refine h3 ?_
    rw [String.lt_iff_toList_lt]
    decide

/-- C8 (amended): a limit at most 0 is not clamped to 1.  The relaxation
branch never triggers, the call returns the high-threshold survivors sliced
by Python semantics — empty for limit 0, and for a negative limit the last
`-limit` elements are dropped, so the length is `max 0 (survivors + limit)`
rather than 1. -/
theorem C8_limit_nonpositive (resultsA : List RepositorySignature)
    (intent_vectors : List (String × ℚ)) (resultsC : List QuantumSearchResult)
    (q : String) {n : ℤ} (hn : n ≤ 0) :
    collapse_to_precision resultsA intent_vectors n =
      pySlice n (resultsA.filter highPass) ∧
    (n = 0 → collapse_to_precision resultsA intent_vectors n = [] ∧
      collapse_to_precision_client resultsC q n = []) ∧
    (n < 0 → ((collapse_to_precision resultsA intent_vectors n).length : ℤ) =
        max 0 (((resultsA.filter highPass).length : ℤ) + n) ∧
      ((collapse_to_precision_client resultsC q n).length : ℤ) =
        max 0 ((resultsC.length : ℤ) + n)) := by
  have hcond : ¬ ((resultsA.filter highPass).length : ℤ) < n := by
    have h0 : (0 : ℤ) ≤ ((resultsA.filter highPass).length : ℤ) := Int.ofNat_nonneg _
    omega
  have h1 : collapse_to_precision resultsA intent_vectors n =
      pySlice n (resultsA.filter highPass) := by
    have hcol : collapse_to_precision resultsA intent_vectors n =
        pySlice n (if ((resultsA.filter highPass).length : ℤ) < n
          then resultsA.filter lowPass else resultsA.filter highPass) := rfl
    rw [hcol, if_neg hcond]
  refine ⟨h1, ?_, ?_⟩
  · rintro rfl
    refine ⟨?_, pySlice_zero _⟩
    rw [h1]
    exact pySlice_zero _
  · intro hneg
    constructor
    · rw [h1, length_pySlice_neg hneg]
    · show ((pySlice n (sortDesc quantum_score resultsC)).length : ℤ) = _
      rw [length_pySlice_neg hneg, length_sortDesc]

theorem collapse_to_precision_zero (A : List RepositorySignature)
    (intent_vectors : List (String × ℚ)) :
    collapse_to_precision A intent_vectors 0 = [] := by
  have hcol : collapse_to_precision A intent_vectors 0 =
      pySlice 0 (if ((A.filter highPass).length : ℤ) < 0
        then A.filter lowPass else A.filter highPass) := rfl
  rw [hcol, pySlice_zero]

/-- C8 counterexample: on a nonempty store, a call with limit 0 returns
the empty list, not exactly one result. -/
theorem C8_counterexample :
    ([("a", tieSignatureA)] : List (String × RepositorySignature)) ≠ [] ∧
    ¬ ((omnipresent_analysis ⟨[("a", tieSignatureA)]⟩ "" 0).2.length = 1) := by
  refine ⟨by simp, ?_⟩
  have hout : (omnipresent_analysis ⟨[("a", tieSignatureA)]⟩ "" 0).2 =
      collapse_to_precision
        (sortDesc (fun s => s.consciousness_score)
          (analysisLoop (parse_intent_vectors "") [("a", tieSignatureA)]).2)
        (parse_intent_vectors "") 0 := rfl
  rw [hout, collapse_to_precision_zero]
  simp

/-- Witness for C8 at limit -1 with a concrete candidate list. -/
theorem C8_witness :
    ((-1 : ℤ) ≤ 0) ∧
    collapse_to_precision [strongSignature] [] (-1) =
      pySlice (-1) ([strongSignature].filter highPass) :=
  ⟨by norm_num, (C8_limit_nonpositive [strongSignature] [] [] "query" (by norm_num)).1⟩

theorem dedupByUrl_eq_self {l : List QuantumSearchResult} {seen : List String}
    (h : (l.map (fun r => r.url)).Nodup)
    (hdisj : ∀ r ∈ l, r.url ∉ seen) :
    dedupByUrl seen l = l := by
  induction l generalizing seen with
  | nil => rfl
  | cons r rest ih =>
      simp only [List.map_cons, List.nodup_cons, List.mem_map] at h
      rw [dedupByUrl, if_neg (by simpa using hdisj r (List.mem_cons_self r rest))]
      congr 1
      refine ih h.2 ?_
      intro r' hr'
      simp only [List.mem_cons]
      rintro (hurl | hurl)
      · exact h.1 ⟨r', hr', hurl⟩
      · exact hdisj r' (List.mem_cons_of_mem r hr') hurl

/-- C7 (amended): permuting the per-layer result lists does not change the
final ranked output provided the merged results have pairwise-distinct URLs
and pairwise-distinct quantum scores; with duplicate URLs or tied scores the
output can depend on the merge order. -/
theorem C7_merge_order_invariant (layers₁ layers₂ : List (List QuantumSearchResult))
    (q : String) (n : ℤ) (hperm : layers₁ ~ layers₂)
    (hurl : ((layers₁.flatten).map (fun r => r.url)).Nodup)
    (hkey : ((layers₁.flatten).map quantum_score).Nodup) :
    collapse_to_precision_client (synthesize_dimensional_results layers₁) q n =
      collapse_to_precision_client (synthesize_dimensional_results layers₂) q n := by
  have hflat : layers₁.flatten ~ layers₂.flatten := hperm.flatten
  have hurl₂ : ((layers₂.flatten).map (fun r => r.url)).Nodup :=
    ((hflat.map (fun r => r.url)).nodup_iff).1 hurl
  have e₁ : synthesize_dimensional_results layers₁ = layers₁.flatten :=
    dedupByUrl_eq_self hurl (by intro r hr; exact List.not_mem_nil _)
  have e₂ : synthesize_dimensional_results layers₂ = layers₂.flatten :=
    dedupByUrl_eq_self hurl₂ (by intro r hr; exact List.not_mem_nil _)
  unfold collapse_to_precision_client
  rw [e₁, e₂, sortDesc_eq_of_perm quantum_score hflat hkey]

/-- C7 counterexample: two layers holding one zero-scored result each,
merged in the two orders, produce different final ranked outputs — the
stable sort keeps tied results in merge order, so merge order is visible in
the result. -/
theorem C7_counterexample :
    ¬ (collapse_to_precision_client
        (synthesize_dimensional_results [[resultAlpha], [resultGamma]]) "query" 10 =
      collapse_to_precision_client
        (synthesize_dimensional_results [[resultGamma], [resultAlpha]]) "query" 10) := by
  have h1 : collapse_to_precision_client
      (synthesize_dimensional_results [[resultAlpha], [resultGamma]]) "query" 10 =
      [resultAlpha, resultGamma] := by
    norm_num [collapse_to_precision_client, synthesize_dimensional_results, dedupByUrl,
      sortDesc, insertDesc, quantum_score, pySlice, resultAlpha, resultGamma]
  have h2 : collapse_to_precision_client
      (synthesize_dimensional_results [[resultGamma], [resultAlpha]]) "query" 10 =
      [resultGamma, resultAlpha] := by
    norm_num [collapse_to_precision_client, synthesize_dimensional_results, dedupByUrl,
      sortDesc, insertDesc, quantum_score, pySlice, resultAlpha, resultGamma]
  rw [h1, h2]
  intro h
  have hm := congrArg (List.map (fun r => r.url)) h
  simp [resultAlpha, resultGamma] at hm

/-- Witness for C7 at two concrete layers with distinct URLs and scores. -/
theorem C7_witness :
    ([[resultAlpha], [resultBeta]] ~ [[resultBeta], [resultAlpha]]) ∧
    collapse_to_precision_client
        (synthesize_dimensional_results [[resultAlpha], [resultBeta]]) "query" 10 =
      collapse_to_precision_client
        (synthesize_dimensional_results [[resultBeta], [resultAlpha]]) "query" 10 := by
  have hperm : [[resultAlpha], [resultBeta]] ~ [[resultBeta], [resultAlpha]] :=
    List.Perm.swap [resultBeta] [resultAlpha] []
  refine ⟨hperm, C7_merge_order_invariant _ _ "query" 10 hperm ?_ ?_⟩
  · decide
  · norm_num [quantum_score, resultAlpha, resultBeta]
